import Mathlib

/-!
Shallow embedding of the agno-agent-app repository (src/agents/operator.py and
src/api/routes/agents.py), together with theorems settling the frozen claims
about its specification.

The two external agent builders (agents.sage.get_sage, agents.scholar.get_scholar)
and the external agno Agent runtime are repository or framework code that is not
under src/: they are modelled abstractly, as parameters or as records of the
construction request, following the spec, section 6 (External collaborators).
-/

/-- AgentType enum from src/agents/operator.py: SAGE = "sage", SCHOLAR = "scholar". -/
inductive AgentType where
  | SAGE
  | SCHOLAR
deriving DecidableEq, Repr

/-- The string value of each AgentType member, as in the Python Enum. -/
def AgentType.value : AgentType → String
  | AgentType.SAGE => "sage"
  | AgentType.SCHOLAR => "scholar"

/-- The members of AgentType in declaration order (Python Enum iteration order). -/
def AgentType.all : List AgentType := [AgentType.SAGE, AgentType.SCHOLAR]

/-- ModelProvider enum from src/agents/operator.py: OPENAI = "openai", GROQ = "groq". -/
inductive ModelProvider where
  | OPENAI
  | GROQ
deriving DecidableEq, Repr

/-- The string value of each ModelProvider member. -/
def ModelProvider.value : ModelProvider → String
  | ModelProvider.OPENAI => "openai"
  | ModelProvider.GROQ => "groq"

/-- get_available_agents from src/agents/operator.py:
returns [agent.value for agent in AgentType]. -/
def get_available_agents : List String :=
  AgentType.all.map AgentType.value

/-- Embedding of Python str.startswith applied to a tuple of candidate
prefixes: true when some candidate is a prefix of the string. -/
def str_startswith (s : String) (ps : List String) : Bool :=
  ps.any (fun p => p.data.isPrefixOf s.data)

/-- get_model_provider from src/agents/operator.py:
GROQ when model_id starts with "llama" or "mixtral", OPENAI otherwise. -/
def get_model_provider (model_id : String) : ModelProvider :=
  if str_startswith model_id ["llama", "mixtral"] then
    ModelProvider.GROQ
  else
    ModelProvider.OPENAI

/-- get_available_models from src/agents/operator.py: the fixed catalog of
(model_id, provider) pairs, in declaration order. -/
def get_available_models : List (String × ModelProvider) :=
  [ ("gpt-4o", ModelProvider.OPENAI),
    ("o3-mini", ModelProvider.OPENAI),
    ("llama-3.3-70b-versatile", ModelProvider.GROQ),
    ("llama-3.3-8b-versatile", ModelProvider.GROQ),
    ("mixtral-8x7b-32768", ModelProvider.GROQ) ]

/-- get_agent from src/agents/operator.py. The two builders get_sage and
get_scholar live in repository files not under src/ (agents/sage.py,
agents/scholar.py), so they are abstract parameters here, of an arbitrary
result type: the function only dispatches. Python defaults are kept:
model_id = "gpt-4o", agent_id = None, user_id = None, session_id = None,
debug_mode = True. -/
def get_agent {CreatedAgent : Type}
    (sage_builder : String → Option String → Option String → Bool → CreatedAgent)
    (scholar_builder : String → Option String → Option String → Bool → CreatedAgent)
    (model_id : String := "gpt-4o")
    (agent_id : Option AgentType := none)
    (user_id : Option String := none)
    (session_id : Option String := none)
    (debug_mode : Bool := true) : CreatedAgent :=
  if agent_id = some AgentType.SAGE then
    sage_builder model_id user_id session_id debug_mode
  else
    scholar_builder model_id user_id session_id debug_mode

/-- A record of one builder invocation: which builder was called and with
which arguments. Used to observe the dispatch of get_agent. -/
structure BuilderCall where
  builder : AgentType
  model_id : String
  user_id : Option String
  session_id : Option String
  debug_mode : Bool
deriving DecidableEq, Repr

/-- A builder that records its own invocation. -/
def record_builder (t : AgentType) :
    String → Option String → Option String → Bool → BuilderCall :=
  fun m u s d => BuilderCall.mk t m u s d

/-- str_startswith is true exactly when one of the candidates is a prefix. -/
theorem str_startswith_iff (s : String) (ps : List String) :
    str_startswith s ps = true ↔ ∃ p ∈ ps, p.data <+: s.data := by
  simp [str_startswith, List.any_eq_true]

/-- C2: get_model_provider is a pure total function on strings: it returns
GROQ exactly when the model id starts with "llama" or "mixtral" (a
case-sensitive prefix test on the character data), and OPENAI in every
other case. -/
theorem get_model_provider_spec (s : String) :
    (("llama".data <+: s.data ∨ "mixtral".data <+: s.data) →
      get_model_provider s = ModelProvider.GROQ) ∧
    (¬ "llama".data <+: s.data → ¬ "mixtral".data <+: s.data →
      get_model_provider s = ModelProvider.OPENAI) := by
  constructor
  · intro h
    have hs : str_startswith s ["llama", "mixtral"] = true := by
      rw [str_startswith_iff]
      rcases h with h | h
      · exact ⟨"llama", by simp, h⟩
      · exact ⟨"mixtral", by simp, h⟩
    simp [get_model_provider, hs]
  · intro h1 h2
    have hs : str_startswith s ["llama", "mixtral"] = false := by
      rw [Bool.eq_false_iff]
      intro hc
      rcases (str_startswith_iff s _).mp hc with ⟨p, hp, hpre⟩
      simp only [List.mem_cons, List.not_mem_nil, or_false] at hp
      rcases hp with rfl | rfl
      · exact h1 hpre
      · exact h2 hpre
    simp [get_model_provider, hs]

/-- Witness for C2 at concrete inputs: a llama model maps to GROQ; the
case variant "Llama" and the empty string map to OPENAI. -/
theorem get_model_provider_spec_witness :
    get_model_provider "llama-3.3-70b-versatile" = ModelProvider.GROQ ∧
    get_model_provider "Llama" = ModelProvider.OPENAI ∧
    get_model_provider "" = ModelProvider.OPENAI :=
  ⟨(get_model_provider_spec "llama-3.3-70b-versatile").1 (Or.inl (by decide)),
   (get_model_provider_spec "Llama").2 (by decide) (by decide),
   (get_model_provider_spec "").2 (by decide) (by decide)⟩

/-- C1: get_agent dispatches on agent_id: when agent_id equals SAGE the sage
builder is applied once with model_id, user_id, session_id and debug_mode
forwarded unchanged; for every other value (SCHOLAR, none) the scholar
builder is applied once with the same arguments. -/
theorem get_agent_dispatch {CreatedAgent : Type}
    (sb scb : String → Option String → Option String → Bool → CreatedAgent)
    (model_id : String) (agent_id : Option AgentType)
    (user_id session_id : Option String) (debug_mode : Bool) :
    (agent_id = some AgentType.SAGE →
      get_agent sb scb model_id agent_id user_id session_id debug_mode =
        sb model_id user_id session_id debug_mode) ∧
    (agent_id ≠ some AgentType.SAGE →
      get_agent sb scb model_id agent_id user_id session_id debug_mode =
        scb model_id user_id session_id debug_mode) := by
  constructor
  · intro h
    simp [get_agent, h]
  · intro h
    simp [get_agent, h]

/-- Witness for C1: with recording builders, a SAGE request reaches the sage
builder, while SCHOLAR and none reach the scholar builder, arguments intact. -/
theorem get_agent_dispatch_witness :
    get_agent (record_builder AgentType.SAGE) (record_builder AgentType.SCHOLAR)
        "gpt-4o" (some AgentType.SAGE) (some "u") (some "s") false =
      record_builder AgentType.SAGE "gpt-4o" (some "u") (some "s") false ∧
    get_agent (record_builder AgentType.SAGE) (record_builder AgentType.SCHOLAR)
        "gpt-4o" (some AgentType.SCHOLAR) (some "u") (some "s") false =
      record_builder AgentType.SCHOLAR "gpt-4o" (some "u") (some "s") false ∧
    get_agent (record_builder AgentType.SAGE) (record_builder AgentType.SCHOLAR)
        "gpt-4o" none (some "u") (some "s") false =
      record_builder AgentType.SCHOLAR "gpt-4o" (some "u") (some "s") false :=
  ⟨(get_agent_dispatch _ _ _ _ _ _ _).1 rfl,
   (get_agent_dispatch _ _ _ _ _ _ _).2 (by decide),
   (get_agent_dispatch _ _ _ _ _ _ _).2 (by decide)⟩

/-- C6: get_available_models returns exactly the 5 fixed catalog entries in
declaration order, and the provider column coincides with applying
get_model_provider to the model id column. -/
theorem get_available_models_spec :
    get_available_models =
      [ ("gpt-4o", ModelProvider.OPENAI),
        ("o3-mini", ModelProvider.OPENAI),
        ("llama-3.3-70b-versatile", ModelProvider.GROQ),
        ("llama-3.3-8b-versatile", ModelProvider.GROQ),
        ("mixtral-8x7b-32768", ModelProvider.GROQ) ] ∧
    List.map Prod.snd get_available_models =
      List.map (fun p => get_model_provider p.1) get_available_models := by
  exact ⟨rfl, by decide⟩

/-- The Model enum of src/api/routes/agents.py, created dynamically from
get_available_models: one member per catalog entry, in catalog order, whose
value is the catalog model id. -/
inductive Model where
  | gpt_4o
  | o3_mini
  | llama_3_3_70b_versatile
  | llama_3_3_8b_versatile
  | mixtral_8x7b_32768
deriving DecidableEq, Repr

/-- The string value of each Model member: the catalog model id it was
built from. -/
def Model.value : Model → String
  | Model.gpt_4o => "gpt-4o"
  | Model.o3_mini => "o3-mini"
  | Model.llama_3_3_70b_versatile => "llama-3.3-70b-versatile"
  | Model.llama_3_3_8b_versatile => "llama-3.3-8b-versatile"
  | Model.mixtral_8x7b_32768 => "mixtral-8x7b-32768"

/-- The members of Model in declaration (catalog) order. -/
def Model.all : List Model :=
  [ Model.gpt_4o, Model.o3_mini, Model.llama_3_3_70b_versatile,
    Model.llama_3_3_8b_versatile, Model.mixtral_8x7b_32768 ]

/-- Modelled from the spec: pydantic validation of the model field of a run
request body coerces a raw string to the Model enum member with that value,
and rejects the request when no member matches. -/
def Model.ofValue (s : String) : Option Model :=
  List.find? (fun m => m.value == s) Model.all

/-- Modelled from the spec: FastAPI validation of the agent_id path
parameter coerces the raw path segment to the AgentType member with that
value, and rejects the request with status 422 when no member matches. -/
def AgentType.ofValue (s : String) : Option AgentType :=
  List.find? (fun a => a.value == s) AgentType.all

/-- Modelled from the spec: the agno RunResponse object; only its text
content is consumed by this repository. -/
structure RunResponse where
  content : String

/-- Modelled from the spec: the external agno Agent capability, exposing a
streaming run (a finite sequence of response chunks) and a non-streaming
run (one final response). Both correspond to agent.arun(message, stream). -/
structure Agent where
  arun_stream : String → List RunResponse
  arun : String → RunResponse

/-- The pair of external builders get_sage and get_scholar as seen by the
HTTP layer: each takes model_id, user_id, session_id and debug_mode and
either returns an Agent or raises (modelled as Except with the exception
message). -/
structure Builders where
  get_sage : String → Option String → Option String → Bool → Except String Agent
  get_scholar : String → Option String → Option String → Bool → Except String Agent

/-- The loop body of chat_response_streamer from src/api/routes/agents.py:
for each chunk of the streaming run, in order, yield chunk.content. -/
def relay_chunks : List RunResponse → List String
  | [] => []
  | chunk :: rest => chunk.content :: relay_chunks rest

/-- chat_response_streamer from src/api/routes/agents.py: starts the
streaming run of the agent on the message and relays every chunk content. -/
def chat_response_streamer (agent : Agent) (message : String) : List String :=
  relay_chunks (agent.arun_stream message)

/-- An HTTP-level outcome of the run endpoint: a streaming response with a
media type and the delivered events, a completed response with a status code
and a body, or an HTTP error with a status code and a detail message. -/
inductive AgentResponse where
  | streaming (media_type : String) (events : List String)
  | completed (statusCode : Nat) (content : String)
  | httpError (statusCode : Nat) (detail : String)
deriving Repr

/-- The construction call made by run_agent in src/api/routes/agents.py:
get_agent applied to the body model value, the path agent_id, and the body
user and session ids; debug_mode is not passed, so its default applies.
Builder-polymorphic so the received arguments can be observed. -/
def run_agent_construction {CreatedAgent : Type}
    (sb scb : String → Option String → Option String → Bool → CreatedAgent)
    (agent_id : AgentType) (body_model : Model)
    (body_user_id body_session_id : Option String) : CreatedAgent :=
  get_agent sb scb body_model.value (some agent_id) body_user_id body_session_id

/-- The request body of the run endpoint (RunRequest in
src/api/routes/agents.py), with its pydantic defaults. -/
structure RunRequest where
  message : String
  stream : Bool := true
  model : Model := Model.gpt_4o
  user_id : Option String := none
  session_id : Option String := none

/-- run_agent from src/api/routes/agents.py: construct the agent via
get_agent; on failure answer 404 with the exception message in the detail;
otherwise run the agent, streaming or not according to the body flag. -/
def run_agent (B : Builders) (agent_id : AgentType) (body : RunRequest) :
    AgentResponse :=
  match run_agent_construction B.get_sage B.get_scholar agent_id
      body.model body.user_id body.session_id with
  | Except.error e => AgentResponse.httpError 404 ("Agent not found: " ++ e)
  | Except.ok agent =>
    if body.stream then
      AgentResponse.streaming "text/event-stream"
        (chat_response_streamer agent body.message)
    else
      AgentResponse.completed 200 (agent.arun body.message).content

/-- list_agents from src/api/routes/agents.py: status 200 and the available
agent ids as the body. -/
def list_agents : Nat × List String :=
  (200, get_available_agents)

/-- Modelled from the spec: the transport-level dispatch of
POST /agents/agent_id/runs. The raw path segment is validated against the
AgentType enum before run_agent executes; an unrecognized value is answered
with status 422 and no application code runs. -/
def handle_run_request (B : Builders) (raw_agent_id : String)
    (body : RunRequest) : AgentResponse :=
  match AgentType.ofValue raw_agent_id with
  | none => AgentResponse.httpError 422 "Input should be sage or scholar"
  | some agent_id => run_agent B agent_id body

/-- The relay loop maps the content projection over the chunk list. -/
theorem relay_chunks_eq_map (l : List RunResponse) :
    relay_chunks l = l.map RunResponse.content := by
  induction l with
  | nil => rfl
  | cons c rest ih => simp [relay_chunks, ih]

/-- C3: chat_response_streamer yields exactly the per-chunk contents of the
streaming run of the agent, in production order, with nothing dropped,
duplicated or reordered: its output equals the map of the content
projection over the chunk sequence. -/
theorem chat_response_streamer_spec (agent : Agent) (message : String) :
    chat_response_streamer agent message =
      List.map RunResponse.content (agent.arun_stream message) := by
  rw [chat_response_streamer, relay_chunks_eq_map]

/-- C7: get_available_agents returns exactly sage then scholar, and the
list_agents endpoint returns that same list with status 200. -/
theorem list_agents_spec :
    get_available_agents = ["sage", "scholar"] ∧
    list_agents = (200, ["sage", "scholar"]) :=
  ⟨rfl, rfl⟩

/-- C4: when the construction call of run_agent fails with message e, the
endpoint answers 404 with a detail that contains e, and neither run
capability output is ever produced for this request. -/
theorem run_agent_construction_failure (B : Builders) (agent_id : AgentType)
    (body : RunRequest) (e : String)
    (h : run_agent_construction B.get_sage B.get_scholar agent_id
      body.model body.user_id body.session_id = Except.error e) :
    run_agent B agent_id body =
      AgentResponse.httpError 404 ("Agent not found: " ++ e) ∧
    (∀ mt evs, run_agent B agent_id body ≠ AgentResponse.streaming mt evs) ∧
    (∀ code c, run_agent B agent_id body ≠ AgentResponse.completed code c) ∧
    e.data <:+ ("Agent not found: " ++ e).data := by
  have hr : run_agent B agent_id body =
      AgentResponse.httpError 404 ("Agent not found: " ++ e) := by
    simp [run_agent, h]
  refine ⟨hr, ?_, ?_, ?_⟩
  · intro mt evs
    simp [hr]
  · intro code c
    simp [hr]
  · rw [String.data_append]
    exact List.suffix_append _ _

/-- Builders that always fail with message boom, for witnessing C4. -/
def failing_builders : Builders :=
  ⟨fun _ _ _ _ => Except.error "boom", fun _ _ _ _ => Except.error "boom"⟩

/-- Witness for C4: under failing builders a sage run request is answered
404 with the exception message in the detail. -/
theorem run_agent_construction_failure_witness :
    run_agent failing_builders AgentType.SAGE
      ⟨"hello", true, Model.gpt_4o, none, none⟩ =
        AgentResponse.httpError 404 "Agent not found: boom" :=
  (run_agent_construction_failure failing_builders AgentType.SAGE
    ⟨"hello", true, Model.gpt_4o, none, none⟩ "boom" rfl).1

/-- C5: when the stream flag is false and construction yields an agent, the
endpoint performs the non-streaming run once and answers 200 with the
content of its response as the body. -/
theorem run_agent_non_streaming (B : Builders) (agent_id : AgentType)
    (body : RunRequest) (agent : Agent)
    (hs : body.stream = false)
    (hc : run_agent_construction B.get_sage B.get_scholar agent_id
      body.model body.user_id body.session_id = Except.ok agent) :
    run_agent B agent_id body =
      AgentResponse.completed 200 (agent.arun body.message).content := by
  simp [run_agent, hc, hs]

/-- A concrete agent answering deterministically, for witnessing C5. -/
def echo_agent : Agent :=
  ⟨fun m => [⟨m⟩], fun m => ⟨"echo " ++ m⟩⟩

/-- Builders that always construct echo_agent, for witnessing C5. -/
def ok_builders : Builders :=
  ⟨fun _ _ _ _ => Except.ok echo_agent, fun _ _ _ _ => Except.ok echo_agent⟩

/-- Witness for C5: a non-streaming scholar run returns 200 and the full
text of the agent response. -/
theorem run_agent_non_streaming_witness :
    run_agent ok_builders AgentType.SCHOLAR
      ⟨"hello", false, Model.gpt_4o, none, none⟩ =
        AgentResponse.completed 200 "echo hello" :=
  run_agent_non_streaming ok_builders AgentType.SCHOLAR
    ⟨"hello", false, Model.gpt_4o, none, none⟩ echo_agent rfl rfl

/-- C8: a run request whose raw agent_id path value is neither sage nor
scholar is answered 422 by the transport validation, and the outcome does
not depend on the builders: no agent is constructed. -/
theorem handle_run_request_invalid (B : Builders) (s : String)
    (body : RunRequest)
    (h : s ∉ (["sage", "scholar"] : List String)) :
    handle_run_request B s body =
      AgentResponse.httpError 422 "Input should be sage or scholar" ∧
    (∀ B2 : Builders, handle_run_request B2 s body = handle_run_request B s body) := by
  have hof : AgentType.ofValue s = none := by
    rw [AgentType.ofValue, List.find?_eq_none]
    intro a _ hc
    have hv : a.value = s := eq_of_beq hc
    apply h
    rw [← hv]
    cases a <;> simp [AgentType.value]
  constructor
  · simp [handle_run_request, hof]
  · intro B2
    simp [handle_run_request, hof]

/-- Witness for C8: the path value bogus is rejected with 422. -/
theorem handle_run_request_invalid_witness :
    handle_run_request failing_builders "bogus"
      ⟨"hello", true, Model.gpt_4o, none, none⟩ =
        AgentResponse.httpError 422 "Input should be sage or scholar" :=
  (handle_run_request_invalid failing_builders "bogus"
    ⟨"hello", true, Model.gpt_4o, none, none⟩ (by decide)).1

/-- Every Model member value is a catalog model id. -/
theorem model_value_mem_catalog (m : Model) :
    m.value ∈ List.map Prod.fst get_available_models := by
  cases m <;> decide

/-- C9: every run request body carries a catalog model id, the construction
call of the run endpoint therefore only ever passes a catalog model id to
the builders, and any model string outside the catalog fails the Model enum
validation (so it never reaches get_agent). -/
theorem run_request_model_in_catalog :
    (∀ body : RunRequest,
      body.model.value ∈ List.map Prod.fst get_available_models) ∧
    (∀ agent_id : AgentType, ∀ body : RunRequest,
      (run_agent_construction (record_builder AgentType.SAGE)
        (record_builder AgentType.SCHOLAR) agent_id body.model
        body.user_id body.session_id).model_id ∈
          List.map Prod.fst get_available_models) ∧
    (∀ s : String, s ∉ List.map Prod.fst get_available_models →
      Model.ofValue s = none) := by
  refine ⟨?_, ?_, ?_⟩
  · intro body
    exact model_value_mem_catalog body.model
  · intro agent_id body
    cases agent_id <;>
      simpa [run_agent_construction, get_agent, record_builder] using
        model_value_mem_catalog body.model
  · intro s hs
    cases hfind : Model.ofValue s with
    | none => rfl
    | some m =>
      exfalso
      have hp := List.find?_some hfind
      have hv : m.value = s := eq_of_beq hp
      exact hs (hv ▸ model_value_mem_catalog m)

/-- Witness for C9: the string gpt-5 is outside the catalog and fails the
Model enum validation. -/
theorem run_request_model_in_catalog_witness :
    Model.ofValue "gpt-5" = none :=
  run_request_model_in_catalog.2.2 "gpt-5" (by decide)

/-- C10: the construction call of the run endpoint omits debug_mode, so the
default of get_agent applies and the selected builder always receives
debug_mode equal to true, whichever agent and body are requested. -/
theorem run_agent_debug_mode_default (agent_id : AgentType) (body : RunRequest) :
    (run_agent_construction (record_builder AgentType.SAGE)
      (record_builder AgentType.SCHOLAR) agent_id body.model
      body.user_id body.session_id).debug_mode = true := by
  cases agent_id <;> rfl
